import Mathlib

/-!
Shallow embedding of the ar-qna-client image-submission flow.

Source files embedded:
 - `src/components/ResponseRenderer.tsx` : the `ResponseRenderer` component,
   a pure projection of an `AnswerData` to rendered sections;
 - `src/components/ImageUploader` (in `App.tsx`): the stateful component with
   handlers `handleFileSelect`, `startCamera`, `captureImage`, `uploadImage`.

Modelling conventions:
 - A JS string is a Lean `String`; `trimString` stands for JS `trim`.
 - A `Blob` is opaque binary data, modelled as `List Nat`.
 - Each synchronous segment of an event handler (up to an `await` or an async
   callback registration) is one atomic step on the UI state, matching React's
   batching of `setState` calls inside one synchronous continuation.
 - The `axios.post('/ask', ...)` round-trip is an environment event carrying
   either the parsed `Answer` document or a transport error; the `await`
   continuation (try/catch/finally of `uploadImage`) is the `uploadResolve`
   step.
-/

/-- Opaque binary image data (`Blob`). -/
abbrev Blob := List Nat

/-- The `status` field of the `Answer` interface: `"success" | "error"`. -/
inductive Status
  | success
  | error
deriving DecidableEq, Repr

/-- The `Answer` / `AnswerData` interface:
`{ status: "success" | "error", answer: string, diagram?: string }`.
`diagram = none` models an absent field. -/
structure AnswerData where
  status : Status
  answer : String
  diagram : Option String
deriving DecidableEq, Repr

/-- JS `String.prototype.trim()`: drop leading and trailing whitespace
characters. (Written over the character list so it evaluates by kernel
reduction; Lean's own `String.trim` has the same meaning but does not
reduce.) -/
def trimString (s : String) : String :=
  String.mk (((s.data.dropWhile Char.isWhitespace).reverse.dropWhile
      Char.isWhitespace).reverse)

/-- `const hasDiagram = !!data.diagram && data.diagram.trim().length > 0` from
`ResponseRenderer.tsx`. JS truthiness: `!!undefined` and `!!""` are false. -/
def hasDiagram (data : AnswerData) : Bool :=
  match data.diagram with
  | none => false
  | some s => (!(s == "")) && decide (0 < (trimString s).length)

/-- One rendered node of the `ResponseRenderer` output, abstracting the JSX
tree to the nodes the spec talks about: the `<h4>Diagram</h4>` heading, the
`<SVGRenderer svgContent=.../>` invocation, the `<h4>Explanation</h4>`
heading, and the `<LatexRenderer content=.../>` invocation. -/
inductive Node
  | diagramHeading
  | svgRenderer (svgContent : String)
  | explanationHeading
  | latexRenderer (content : String)
deriving DecidableEq, Repr

/-- The `ResponseRenderer` component body, as the ordered list of rendered
nodes: when `hasDiagram`, a diagram section (heading + `SVGRenderer` on
`data.diagram || ''`) followed by the answer section with an "Explanation"
heading; the answer section always renders `LatexRenderer` on `data.answer`. -/
def ResponseRenderer (data : AnswerData) : List Node :=
  (if hasDiagram data then
    [Node.diagramHeading, Node.svgRenderer (data.diagram.getD "")]
   else []) ++
  (if hasDiagram data then [Node.explanationHeading] else []) ++
  [Node.latexRenderer data.answer]

/-- The className chosen by `ImageUploader` for the answer box:
`answer.status === 'error' ? 'bg-red-100 text-red-700' : 'bg-green-100 text-green-700'`. -/
def answerBoxClass (answer : AnswerData) : String :=
  if answer.status = Status.error then "bg-red-100 text-red-700"
  else "bg-green-100 text-green-700"

/-- One failure mode of the `/ask` round-trip; `uploadImage`'s catch block
treats every rejection of `axios.post` alike. -/
inductive TransportError
  | networkError
  | httpStatus (code : Nat)
  | malformedBody
deriving DecidableEq, Repr

/-- One multipart request to `POST /ask`: `formData.append('image', file)`
and `formData.append('question', ...)`. -/
structure SubmissionRequest where
  image : Blob
  question : String
deriving DecidableEq, Repr

/-- The string literal appended under the `question` form field in
`uploadImage`. -/
def questionText : String :=
  "Can you review this image and solve the question with step by step reasoning?"

/-- The `Answer` synthesized by `uploadImage`'s catch block:
`{ status: 'error', answer: 'Failed to process the image. Please try again.' }`. -/
def failedAnswer : AnswerData :=
  { status := Status.error
    answer := "Failed to process the image. Please try again."
    diagram := none }

/-- The React state of `ImageUploader`, plus the observable effects the claims
are about. `cameraTracks` holds one `Bool` per track of the `MediaStream` in
`videoRef.current.srcObject` (`true` = the track has been `stop()`ed).
`pendingBlob` is a registered-but-unfired `canvas.toBlob` callback together
with the argument it will receive (`none` = encoding yields `null`).
`inflight` counts `axios.post` requests awaiting resolution; `sentRequests`
logs every request ever issued. -/
structure UIState where
  selectedImage : Option Blob
  answer : Option AnswerData
  loading : Bool
  showCamera : Bool
  cameraTracks : List Bool
  pendingBlob : Option (Option Blob)
  inflight : Nat
  sentRequests : List SubmissionRequest
deriving DecidableEq, Repr

/-- The initial `useState` values: images and answer `null`, `loading` and
`showCamera` `false`, no stream, no request. -/
def initState : UIState :=
  { selectedImage := none
    answer := none
    loading := false
    showCamera := false
    cameraTracks := []
    pendingBlob := none
    inflight := 0
    sentRequests := [] }

/-- The synchronous part of `uploadImage(file)`: `setLoading(true)`, build the
form data (`image` = the blob, `question` = `questionText`) and issue
`axios.post('/ask', formData, ...)`; the request is now in flight. The
try/catch/finally continuation after the `await` is `uploadResolve`. -/
def uploadImage (file : Blob) (s : UIState) : UIState :=
  { s with loading := true
           sentRequests := s.sentRequests ++ [{ image := file, question := questionText }]
           inflight := s.inflight + 1 }

/-- The continuation of `uploadImage` once `axios.post` settles: on fulfilment
`setAnswer(response.data)`; in the catch block `setAnswer(failedAnswer)`; in
the finally block `setLoading(false)`. One in-flight request resolves. -/
def uploadResolve (outcome : Except TransportError AnswerData) (s : UIState) : UIState :=
  let s' :=
    match outcome with
    | Except.ok data => { s with answer := some data }
    | Except.error _ => { s with answer := some failedAnswer }
  { s' with loading := false, inflight := s'.inflight - 1 }

/-- `handleFileSelect`: with no file chosen nothing happens; with a file,
`setAnswer(null)`, `setLoading(true)`, the `FileReader` preview
(`setSelectedImage`, folded into this step — no claim observes its timing) and
then `await uploadImage(file)`. -/
def handleFileSelect (file : Option Blob) (s : UIState) : UIState :=
  match file with
  | none => s
  | some f =>
      uploadImage f { s with answer := none, loading := true, selectedImage := some f }

/-- `startCamera`: `getUserMedia` either fulfils with a stream — its tracks
are installed on `videoRef.current.srcObject`, `setShowCamera(true)`,
`setAnswer(null)` — or rejects, in which case the catch block only calls
`console.error`, changing nothing. `outcome = some n` is a stream of `n` live
tracks; `none` is `CameraAccessError`. -/
def startCamera (outcome : Option Nat) (s : UIState) : UIState :=
  match outcome with
  | some n =>
      { s with cameraTracks := List.replicate n false
               showCamera := true
               answer := none }
  | none => s

/-- The synchronous body of `captureImage`, guarded by `if (videoRef.current)`
(the `<video>` element is mounted exactly when `showCamera` is true):
`setAnswer(null)`, `setLoading(true)`, draw the frame, register the
`canvas.toBlob` callback (its eventual argument is `blobResult`), then stop
every track of the stream and `setShowCamera(false)`. -/
def captureImage (blobResult : Option Blob) (s : UIState) : UIState :=
  if s.showCamera then
    { s with answer := none
             loading := true
             pendingBlob := some blobResult
             cameraTracks := s.cameraTracks.map (fun _ => true)
             showCamera := false }
  else s

/-- The `canvas.toBlob` callback firing: `if (blob)` then
`setSelectedImage(canvas.toDataURL(...))` and `await uploadImage(blob)`;
with a `null` blob the callback body does nothing. Either way the callback is
consumed. -/
def toBlobCallback (s : UIState) : UIState :=
  match s.pendingBlob with
  | none => s
  | some none => { s with pendingBlob := none }
  | some (some b) =>
      uploadImage b { s with pendingBlob := none, selectedImage := some b }

/-- The events of the embedded event loop: the three user-triggered handlers
(with the outcome of their boundary call as payload), the deferred `toBlob`
callback, and the settlement of one in-flight `/ask` request. -/
inductive Event
  | fileSelect (file : Option Blob)
  | startCameraEv (outcome : Option Nat)
  | captureImageEv (blobResult : Option Blob)
  | blobCallback
  | resolveUpload (outcome : Except TransportError AnswerData)

/-- One atomic step of the event loop. `resolveUpload` can only physically
occur while a request is in flight; with none it is a no-op. -/
def step (s : UIState) (e : Event) : UIState :=
  match e with
  | Event.fileSelect f => handleFileSelect f s
  | Event.startCameraEv o => startCamera o s
  | Event.captureImageEv b => captureImage b s
  | Event.blobCallback => toBlobCallback s
  | Event.resolveUpload o => if 1 ≤ s.inflight then uploadResolve o s else s

/-- Run a sequence of events from a state. -/
def runFrom (s : UIState) (evs : List Event) : UIState :=
  evs.foldl step s

/-- Run a sequence of events from the initial state. -/
def run (evs : List Event) : UIState :=
  runFrom initState evs

/-- Events the environment delivers on its own (callback firing, request
settlement), as opposed to user-triggered handlers. -/
def isInternal : Event → Bool
  | Event.blobCallback => true
  | Event.resolveUpload _ => true
  | _ => false

/-- The sequential usage discipline the spec's scheduling model assumes
(one capture/selection → one submission → one render, never overlapped): a
user action is taken only when no request is in flight and no `toBlob`
callback is pending. Environment events are unrestricted (`step` already
guards them). -/
def UserOk (s : UIState) : Event → Prop
  | Event.fileSelect _ => s.inflight = 0 ∧ s.pendingBlob = none
  | Event.startCameraEv _ => s.inflight = 0 ∧ s.pendingBlob = none
  | Event.captureImageEv _ => s.inflight = 0 ∧ s.pendingBlob = none
  | Event.blobCallback => True
  | Event.resolveUpload _ => True

/-- States reachable from `initState` under the sequential usage
discipline. -/
inductive Reachable : UIState → Prop
  | init : Reachable initState
  | next {s : UIState} {e : Event} : Reachable s → UserOk s e → Reachable (step s e)

/-- The inductive invariant of sequential runs: while loading no answer is
displayed; while a `toBlob` callback is pending no answer is displayed and no
request is in flight; at most one request is in flight. -/
def SeqInv (s : UIState) : Prop :=
  (s.loading = true → s.answer = none) ∧
  (s.pendingBlob ≠ none → s.answer = none ∧ s.inflight = 0) ∧
  s.inflight ≤ 1

/-- A state with the camera preview open: two live (un-stopped) tracks
installed by a successful `startCamera`. -/
def sCamera : UIState :=
  { initState with showCamera := true, cameraTracks := [false, false] }

/-- A state with one `/ask` request in flight, as left by `handleFileSelect`
on a chosen file. -/
def sInflightOne : UIState :=
  { initState with
    loading := true
    inflight := 1
    selectedImage := some [1]
    sentRequests := [{ image := [1], question := questionText }] }

/-- A state with a registered `toBlob` callback that will receive a blob. -/
def sPendingBlob : UIState :=
  { initState with loading := true, pendingBlob := some (some [2]) }

lemma string_length_eq_zero_iff (s : String) : s.length = 0 ↔ s = "" := by
  constructor
  · intro h
    have hd : s.data.length = 0 := by
      rw [String.length_data]; exact h
    have hnil : s.data = [] := List.length_eq_zero.mp hd
    cases s with
    | mk data =>
        simp only at hnil
        subst hnil
        rfl
  · intro h
    subst h
    rfl

lemma seqInv_init : SeqInv initState := by
  simp [SeqInv, initState]

lemma seqInv_step {s : UIState} {e : Event} (hI : SeqInv s) (hU : UserOk s e) :
    SeqInv (step s e) := by
  obtain ⟨h1, h2, h3⟩ := hI
  cases e with
  | fileSelect f =>
      obtain ⟨h0, hpb⟩ := hU
      cases f with
      | none => exact ⟨h1, h2, h3⟩
      | some f =>
          refine ⟨?_, ?_, ?_⟩ <;>
            simp [step, handleFileSelect, uploadImage, hpb, h0]
  | startCameraEv o =>
      obtain ⟨h0, hpb⟩ := hU
      cases o with
      | none => exact ⟨h1, h2, h3⟩
      | some n =>
          refine ⟨?_, ?_, ?_⟩ <;>
            simp [step, startCamera, hpb, h0]
  | captureImageEv b =>
      obtain ⟨h0, hpb⟩ := hU
      by_cases hc : s.showCamera = true
      · refine ⟨?_, ?_, ?_⟩ <;> simp [step, captureImage, hc, h0]
      · simp only [step, captureImage, if_neg hc]
        exact ⟨h1, h2, h3⟩
  | blobCallback =>
      rcases hpb : s.pendingBlob with _ | (_ | b)
      · simpa [step, toBlobCallback, hpb] using ⟨h1, h2, h3⟩
      · refine ⟨?_, ?_, ?_⟩ <;> simp [step, toBlobCallback, hpb]
        · intro hl
          exact h1 hl
        · exact h3
      · have hz := h2 (by simp [hpb])
        refine ⟨?_, ?_, ?_⟩ <;>
          simp [step, toBlobCallback, hpb, uploadImage, hz.1, hz.2]
  | resolveUpload o =>
      by_cases hin : 1 ≤ s.inflight
      · have hpb : s.pendingBlob = none := by
          by_contra hne
          have := (h2 hne).2
          omega
        cases o with
        | ok data =>
            refine ⟨?_, ?_, ?_⟩ <;> simp [step, if_pos hin, uploadResolve, hpb]
            omega
        | error err =>
            refine ⟨?_, ?_, ?_⟩ <;> simp [step, if_pos hin, uploadResolve, hpb]
            omega
      · simp only [step, if_neg hin]
        exact ⟨h1, h2, h3⟩

lemma reachable_seqInv {s : UIState} (h : Reachable s) : SeqInv s := by
  induction h with
  | init => exact seqInv_init
  | next hr hu ih => exact seqInv_step ih hu


/-- Claim C1 counterexample: an `AnswerResult` with `status == "error"` whose
`diagram` is present and non-empty after trimming DOES render a "Diagram"
section and DOES invoke the vector renderer — `ResponseRenderer` gates the
diagram section on `hasDiagram` alone, never consulting `status`. -/
theorem c1_error_with_diagram_renders_diagram :
    ({ status := Status.error, answer := "x", diagram := some "<svg></svg>" }
        : AnswerData).status = Status.error ∧
    hasDiagram { status := Status.error, answer := "x", diagram := some "<svg></svg>" } = true ∧
    Node.diagramHeading ∈
      ResponseRenderer { status := Status.error, answer := "x", diagram := some "<svg></svg>" } ∧
    Node.svgRenderer "<svg></svg>" ∈
      ResponseRenderer { status := Status.error, answer := "x", diagram := some "<svg></svg>" } := by
  decide

/-- Claim C1, amended: for every `AnswerResult` with `status == "error"`, the
answer is rendered in the error visual treatment (the red error box class),
but diagram rendering is gated solely on the `diagram` field being non-empty
after trimming, regardless of status — so an error result with a non-empty
`diagram` does render a "Diagram" section; the locally synthesized
transport-error result carries no diagram and renders none. -/
theorem c1_amended_error_treatment_diagram_gating :
    ∀ d : AnswerData, d.status = Status.error →
      answerBoxClass d = "bg-red-100 text-red-700" ∧
      (Node.diagramHeading ∈ ResponseRenderer d ↔ hasDiagram d = true) ∧
      Node.diagramHeading ∉ ResponseRenderer failedAnswer := by
  intro d hd
  refine ⟨by simp [answerBoxClass, hd], ?_, by decide⟩
  by_cases h : hasDiagram d = true
  · simp [ResponseRenderer, h]
  · simp [ResponseRenderer, h]

/-- Witness for the amended C1 at a concrete error result carrying a
diagram. -/
theorem c1_amended_witness :
    answerBoxClass { status := Status.error, answer := "x", diagram := some "<svg></svg>" } =
        "bg-red-100 text-red-700" ∧
    (Node.diagramHeading ∈
        ResponseRenderer { status := Status.error, answer := "x", diagram := some "<svg></svg>" } ↔
      hasDiagram { status := Status.error, answer := "x", diagram := some "<svg></svg>" } = true) ∧
    Node.diagramHeading ∉ ResponseRenderer failedAnswer :=
  c1_amended_error_treatment_diagram_gating
    { status := Status.error, answer := "x", diagram := some "<svg></svg>" } rfl

/-- Claim C7: for a `status == "success"` result, if `diagram` is absent,
empty, or whitespace-only after trimming, the output has no "Diagram" and no
"Explanation" heading; if `diagram` holds non-whitespace text, the output is
exactly a "Diagram" section rendering it, placed before an "Explanation"
section containing the answer text. -/
theorem c7_success_diagram_gating :
    ∀ d : AnswerData, d.status = Status.success →
      (d.diagram = none →
        Node.diagramHeading ∉ ResponseRenderer d ∧
        Node.explanationHeading ∉ ResponseRenderer d) ∧
      (∀ sd : String, d.diagram = some sd → trimString sd = "" →
        Node.diagramHeading ∉ ResponseRenderer d ∧
        Node.explanationHeading ∉ ResponseRenderer d) ∧
      (∀ sd : String, d.diagram = some sd → trimString sd ≠ "" →
        ResponseRenderer d =
          [Node.diagramHeading, Node.svgRenderer sd,
           Node.explanationHeading, Node.latexRenderer d.answer]) := by
  intro d _
  refine ⟨?_, ?_, ?_⟩
  · intro hnone
    have h : hasDiagram d = false := by simp [hasDiagram, hnone]
    simp [ResponseRenderer, h]
  · intro sd hsd htrim
    have h : hasDiagram d = false := by
      have : (trimString sd).length = 0 := by
        rw [(string_length_eq_zero_iff (trimString sd))]
        exact htrim
      simp [hasDiagram, hsd, this]
    simp [ResponseRenderer, h]
  · intro sd hsd htrim
    have hne : ¬(sd == "") = true := by
      intro hb
      have : sd = "" := by simpa using hb
      subst this
      exact htrim rfl
    have hlen : 0 < (trimString sd).length := by
      rcases Nat.eq_zero_or_pos (trimString sd).length with h0 | hpos
      · exact absurd ((string_length_eq_zero_iff (trimString sd)).mp h0) htrim
      · exact hpos
    have h : hasDiagram d = true := by
      simp [hasDiagram, hsd, hlen]
      simpa using hne
    simp [ResponseRenderer, h, hsd]

/-- Witness for C7 at a concrete success result with a non-whitespace
diagram. -/
theorem c7_witness :
    (({ status := Status.success, answer := "See diagram.", diagram := some "<svg>a</svg>" }
        : AnswerData).diagram = some "<svg>a</svg>") ∧
    ResponseRenderer
        { status := Status.success, answer := "See diagram.", diagram := some "<svg>a</svg>" } =
      [Node.diagramHeading, Node.svgRenderer "<svg>a</svg>",
       Node.explanationHeading, Node.latexRenderer "See diagram."] :=
  ⟨rfl,
    (c7_success_diagram_gating
        { status := Status.success, answer := "See diagram.", diagram := some "<svg>a</svg>" }
        rfl).2.2 "<svg>a</svg>" rfl (by decide)⟩

/-- Claim C8: when `getUserMedia` rejects (`CameraAccessError`), `startCamera`
only logs: the UI state is left completely unchanged — no loading flag, no
synthesized error result, the previously presented result untouched. -/
theorem c8_camera_failure_no_ui_change :
    ∀ s : UIState, step s (Event.startCameraEv none) = s := by
  intro s
  rfl

/-- Claim C2 counterexample: from the state left by one file selection —
one request in flight, `loading = true`, unresolved — a second file-selection
event is neither rejected nor queued: `handleFileSelect` starts the second
upload immediately and two requests are in flight at once. -/
theorem c2_second_submission_interleaves :
    (run [Event.fileSelect (some [1])]).loading = true ∧
    (run [Event.fileSelect (some [1])]).inflight = 1 ∧
    (run [Event.fileSelect (some [1]), Event.fileSelect (some [2])]).inflight = 2 ∧
    (run [Event.fileSelect (some [1]), Event.fileSelect (some [2])]).sentRequests =
      [{ image := [1], question := questionText },
       { image := [2], question := questionText }] := by
  decide

/-- Claim C2, amended: the handlers contain no guard on `loading`, so mutual
exclusion is not enforced by the code; at most one submission is in flight
only under the sequential usage discipline the spec's scheduling model
assumes (no user action while a request or `toBlob` callback is
outstanding). -/
theorem c2_amended_at_most_one_inflight :
    ∀ s : UIState, Reachable s → s.inflight ≤ 1 := by
  intro s h
  exact (reachable_seqInv h).2.2

/-- Witness for the amended C2 at the concrete reachable state after one file
selection. -/
theorem c2_amended_witness :
    Reachable (run [Event.fileSelect (some [1])]) ∧
    (run [Event.fileSelect (some [1])]).inflight ≤ 1 := by
  have hr : Reachable (step initState (Event.fileSelect (some [1]))) :=
    Reachable.next Reachable.init ⟨rfl, rfl⟩
  exact ⟨hr, c2_amended_at_most_one_inflight _ hr⟩

/-- Claim C3: every transport failure of the `/ask` round-trip — network
rejection, non-2xx HTTP status, malformed body — resolves to exactly
`{ status: "error", answer: "Failed to process the image. Please try again." }`
(and no diagram), with the loading flag cleared; and whatever the outcome, the
settlement step always leaves an `AnswerResult` displayed, never an escaped
exception. -/
theorem c3_transport_failure_synthesized_error :
    ∀ (s : UIState) (e : TransportError), 1 ≤ s.inflight →
      (step s (Event.resolveUpload (Except.error e))).answer =
        some { status := Status.error
               answer := "Failed to process the image. Please try again."
               diagram := none } ∧
      (step s (Event.resolveUpload (Except.error e))).loading = false ∧
      ∀ o : Except TransportError AnswerData,
        ((step s (Event.resolveUpload o)).answer).isSome = true := by
  intro s e hin
  refine ⟨?_, ?_, ?_⟩
  · simp [step, if_pos hin, uploadResolve, failedAnswer]
  · simp [step, if_pos hin, uploadResolve]
  · intro o
    cases o with
    | ok data => simp [step, if_pos hin, uploadResolve]
    | error err => simp [step, if_pos hin, uploadResolve]

/-- Witness for C3 at the concrete state holding one in-flight request, for
each of the three transport failure modes' representative. -/
theorem c3_witness :
    1 ≤ sInflightOne.inflight ∧
    (step sInflightOne (Event.resolveUpload (Except.error TransportError.networkError))).answer =
      some { status := Status.error
             answer := "Failed to process the image. Please try again."
             diagram := none } ∧
    (step sInflightOne
        (Event.resolveUpload (Except.error TransportError.networkError))).loading = false :=
  ⟨by decide,
    (c3_transport_failure_synthesized_error sInflightOne TransportError.networkError
        (by decide)).1,
    (c3_transport_failure_synthesized_error sInflightOne TransportError.networkError
        (by decide)).2.1⟩

/-- Claim C5 counterexample: the `question` field actually sent is the literal
`"Can you review this image and solve the question with step by step
reasoning?"`, which is not the string the claim states; at the concrete input
of one file selection the sole request carries that different literal. -/
theorem c5_question_text_differs :
    (run [Event.fileSelect (some [1])]).sentRequests =
      [{ image := [1], question := questionText }] ∧
    questionText ≠ "review this image and solve the question with step-by-step reasoning" := by
  constructor
  · rfl
  · decide

/-- Claim C5, amended: every request ever issued, in every run, carries
verbatim the fixed literal `"Can you review this image and solve the question
with step by step reasoning?"` in its `question` field; the prompt is a
constant of `uploadImage`, not configurable by any caller or event. -/
theorem c5_amended_constant_question :
    ∀ (evs : List Event) (r : SubmissionRequest),
      r ∈ (run evs).sentRequests → r.question = questionText := by
  have hstep : ∀ (s : UIState) (e : Event),
      (∀ r ∈ s.sentRequests, r.question = questionText) →
      ∀ r ∈ (step s e).sentRequests, r.question = questionText := by
    intro s e h
    cases e with
    | fileSelect f =>
        cases f with
        | none => exact h
        | some f =>
            intro r hr
            simp [step, handleFileSelect, uploadImage] at hr
            rcases hr with hr | hr
            · exact h r hr
            · simp [hr]
    | startCameraEv o =>
        cases o with
        | none => exact h
        | some n => intro r hr; exact h r (by simpa [step, startCamera] using hr)
    | captureImageEv b =>
        by_cases hc : s.showCamera = true
        · intro r hr
          exact h r (by simpa [step, captureImage, hc] using hr)
        · intro r hr
          exact h r (by simpa [step, captureImage, hc] using hr)
    | blobCallback =>
        rcases hpb : s.pendingBlob with _ | (_ | b)
        · intro r hr
          exact h r (by simpa [step, toBlobCallback, hpb] using hr)
        · intro r hr
          exact h r (by simpa [step, toBlobCallback, hpb] using hr)
        · intro r hr
          simp [step, toBlobCallback, hpb, uploadImage] at hr
          rcases hr with hr | hr
          · exact h r hr
          · simp [hr]
    | resolveUpload o =>
        by_cases hin : 1 ≤ s.inflight
        · cases o with
          | ok data =>
              intro r hr
              exact h r (by simpa [step, if_pos hin, uploadResolve] using hr)
          | error err =>
              intro r hr
              exact h r (by simpa [step, if_pos hin, uploadResolve] using hr)
        · intro r hr
          exact h r (by simpa [step, if_neg hin] using hr)
  intro evs
  suffices hgen : ∀ (evs : List Event) (s : UIState),
      (∀ r ∈ s.sentRequests, r.question = questionText) →
      ∀ r ∈ (runFrom s evs).sentRequests, r.question = questionText by
    intro r hr
    exact hgen evs initState (by simp [initState]) r hr
  intro evs
  induction evs with
  | nil => intro s h; exact h
  | cons e rest ih =>
      intro s h
      exact ih (step s e) (hstep s e h)

/-- Witness for the amended C5 at the concrete request issued by one file
selection. -/
theorem c5_amended_witness :
    ({ image := [1], question := questionText } : SubmissionRequest) ∈
      (run [Event.fileSelect (some [1])]).sentRequests ∧
    ({ image := [1], question := questionText } : SubmissionRequest).question = questionText :=
  ⟨by decide,
    c5_amended_constant_question [Event.fileSelect (some [1])]
      { image := [1], question := questionText } (by decide)⟩

lemma internal_step_noop {s : UIState} (h0 : s.inflight = 0) (hp : s.pendingBlob = none)
    {e : Event} (hi : isInternal e = true) : step s e = s := by
  cases e with
  | fileSelect f => simp [isInternal] at hi
  | startCameraEv o => simp [isInternal] at hi
  | captureImageEv b => simp [isInternal] at hi
  | blobCallback => simp [step, toBlobCallback, hp]
  | resolveUpload o =>
      have : ¬ 1 ≤ s.inflight := by omega
      simp [step, if_neg this]

lemma internal_runFrom_noop {s : UIState} (h0 : s.inflight = 0) (hp : s.pendingBlob = none) :
    ∀ evs : List Event, evs.all isInternal = true → runFrom s evs = s := by
  intro evs
  induction evs with
  | nil => intro _; rfl
  | cons e rest ih =>
      intro h
      rw [List.all_cons, Bool.and_eq_true] at h
      have hs : step s e = s := internal_step_noop h0 hp h.1
      show runFrom (step s e) rest = s
      rw [hs]
      exact ih h.2

/-- Claim C4: on the file path the whole submit invocation is one synchronous
segment that clears the previous answer, raises `loading` and issues the
request; on the capture path the previous answer is cleared and `loading`
raised at capture time, and the `toBlob` callback then issues the request
without touching the answer; and the settlement step lowers `loading` on
every outcome — the success branch and the failure branch alike (`finally`). -/
theorem c4_submit_clears_then_releases_loading :
    (∀ (s : UIState) (f : Blob),
      (handleFileSelect (some f) s).answer = none ∧
      (handleFileSelect (some f) s).loading = true ∧
      (handleFileSelect (some f) s).sentRequests =
        s.sentRequests ++ [{ image := f, question := questionText }]) ∧
    (∀ (s : UIState) (b : Option Blob), s.showCamera = true →
      (captureImage b s).answer = none ∧ (captureImage b s).loading = true) ∧
    (∀ (s : UIState) (b : Blob), s.pendingBlob = some (some b) →
      (toBlobCallback s).loading = true ∧
      (toBlobCallback s).answer = s.answer ∧
      (toBlobCallback s).sentRequests =
        s.sentRequests ++ [{ image := b, question := questionText }]) ∧
    (∀ (s : UIState) (o : Except TransportError AnswerData), 1 ≤ s.inflight →
      (step s (Event.resolveUpload o)).loading = false) := by
  refine ⟨?_, ?_, ?_, ?_⟩
  · intro s f
    simp [handleFileSelect, uploadImage]
  · intro s b hc
    simp [captureImage, hc]
  · intro s b hp
    simp [toBlobCallback, hp, uploadImage]
  · intro s o hin
    cases o with
    | ok data => simp [step, if_pos hin, uploadResolve]
    | error err => simp [step, if_pos hin, uploadResolve]

/-- Witness for C4 at concrete states: the initial state for the file path, a
live-camera state for the capture path, a pending-callback state for the
issue step, and an in-flight state for both settlement branches. -/
theorem c4_witness :
    ((handleFileSelect (some [1]) initState).answer = none ∧
     (handleFileSelect (some [1]) initState).loading = true ∧
     (handleFileSelect (some [1]) initState).sentRequests =
       initState.sentRequests ++ [{ image := [1], question := questionText }]) ∧
    sCamera.showCamera = true ∧
    ((captureImage none sCamera).answer = none ∧ (captureImage none sCamera).loading = true) ∧
    sPendingBlob.pendingBlob = some (some [2]) ∧
    (toBlobCallback sPendingBlob).loading = true ∧
    1 ≤ sInflightOne.inflight ∧
    (step sInflightOne (Event.resolveUpload (Except.ok failedAnswer))).loading = false ∧
    (step sInflightOne
        (Event.resolveUpload (Except.error TransportError.malformedBody))).loading = false :=
  ⟨c4_submit_clears_then_releases_loading.1 initState [1],
   rfl,
   c4_submit_clears_then_releases_loading.2.1 sCamera none rfl,
   rfl,
   (c4_submit_clears_then_releases_loading.2.2.1 sPendingBlob [2] rfl).1,
   by decide,
   c4_submit_clears_then_releases_loading.2.2.2 sInflightOne (Except.ok failedAnswer) (by decide),
   c4_submit_clears_then_releases_loading.2.2.2 sInflightOne
     (Except.error TransportError.malformedBody) (by decide)⟩

/-- Claim C6: in every state reachable under the sequential usage discipline,
while the loading indicator is up no `AnswerResult` is displayed; and each of
the three starting actions — file selection, frame capture, opening the
camera — leaves the displayed answer cleared, so a previously presented
result is never exposed together with the next submission's loading
indicator or result. -/
theorem c6_single_live_answer :
    (∀ s : UIState, Reachable s → s.loading = true → s.answer = none) ∧
    (∀ (s : UIState) (f : Blob), (handleFileSelect (some f) s).answer = none) ∧
    (∀ (s : UIState) (b : Option Blob), s.showCamera = true →
      (captureImage b s).answer = none) ∧
    (∀ (s : UIState) (n : Nat), (startCamera (some n) s).answer = none) := by
  refine ⟨?_, ?_, ?_, ?_⟩
  · intro s h
    exact (reachable_seqInv h).1
  · intro s f
    simp [handleFileSelect, uploadImage]
  · intro s b hc
    simp [captureImage, hc]
  · intro s n
    simp [startCamera]

/-- Witness for C6 at the concrete reachable loading state after one file
selection, and at concrete states for each starting action. -/
theorem c6_witness :
    Reachable (step initState (Event.fileSelect (some [2]))) ∧
    (step initState (Event.fileSelect (some [2]))).loading = true ∧
    (step initState (Event.fileSelect (some [2]))).answer = none ∧
    (handleFileSelect (some [3]) sInflightOne).answer = none ∧
    sCamera.showCamera = true ∧
    (captureImage (some [4]) sCamera).answer = none ∧
    (startCamera (some 1) sInflightOne).answer = none := by
  have hr : Reachable (step initState (Event.fileSelect (some [2]))) :=
    Reachable.next Reachable.init ⟨rfl, rfl⟩
  exact ⟨hr, by decide,
    c6_single_live_answer.1 _ hr (by decide),
    c6_single_live_answer.2.1 sInflightOne [3],
    rfl,
    c6_single_live_answer.2.2.1 sCamera (some [4]) rfl,
    c6_single_live_answer.2.2.2 sInflightOne 1⟩

/-- Claim C9: whatever the eventual `toBlob` result, once the synchronous body
of `captureImage` has run, every track of the stream acquired by
`startCamera` reports stopped and the live preview (`showCamera`) is
closed. -/
theorem c9_capture_stops_all_tracks :
    ∀ (s : UIState) (b : Option Blob), s.showCamera = true →
      (∀ t ∈ (captureImage b s).cameraTracks, t = true) ∧
      (captureImage b s).showCamera = false := by
  intro s b hc
  constructor
  · intro t ht
    simp [captureImage, hc] at ht
    exact ht.2
  · simp [captureImage, hc]

/-- Witness for C9 at the concrete two-track camera state, with the encoding
failing (`toBlob` will deliver `null`) — the tracks are stopped anyway. -/
theorem c9_witness :
    sCamera.showCamera = true ∧
    (∀ t ∈ (captureImage none sCamera).cameraTracks, t = true) ∧
    (captureImage none sCamera).showCamera = false :=
  ⟨rfl, (c9_capture_stops_all_tracks sCamera none rfl).1,
    (c9_capture_stops_all_tracks sCamera none rfl).2⟩

/-- Claim C10: when frame capture runs but JPEG encoding yields no blob
(`toBlob` passes `null`), the callback body is skipped: no request is ever
issued, the loading flag set by `captureImage` stays `true`, and no
environment event (callback or settlement) can ever clear it — the UI stays
in the Loading state indefinitely — while the camera tracks are already
stopped. -/
theorem c10_null_blob_stuck_loading :
    ∀ s : UIState, s.showCamera = true → s.inflight = 0 → s.pendingBlob = none →
      (runFrom s [Event.captureImageEv none, Event.blobCallback]).loading = true ∧
      (runFrom s [Event.captureImageEv none, Event.blobCallback]).sentRequests =
        s.sentRequests ∧
      (runFrom s [Event.captureImageEv none, Event.blobCallback]).inflight = 0 ∧
      (∀ t ∈ (runFrom s [Event.captureImageEv none, Event.blobCallback]).cameraTracks,
        t = true) ∧
      (∀ evs : List Event, evs.all isInternal = true →
        (runFrom (runFrom s [Event.captureImageEv none, Event.blobCallback]) evs).loading =
          true) := by
  intro s hc h0 hp
  have hstate : runFrom s [Event.captureImageEv none, Event.blobCallback] =
      { s with answer := none
               loading := true
               pendingBlob := none
               cameraTracks := s.cameraTracks.map (fun _ => true)
               showCamera := false } := by
    show toBlobCallback (captureImage none s) = _
    simp [captureImage, hc, toBlobCallback]
  refine ⟨?_, ?_, ?_, ?_, ?_⟩
  · rw [hstate]
  · rw [hstate]
  · rw [hstate]; exact h0
  · rw [hstate]
    intro t ht
    simp at ht
    exact ht.2
  · intro evs hall
    rw [hstate]
    rw [internal_runFrom_noop (by exact h0) rfl evs hall]

/-- Witness for C10 at the concrete two-track camera state, followed by the
internal events that could conceivably clear the flag (a stray callback and a
stray settlement) — loading is still `true`. -/
theorem c10_witness :
    sCamera.showCamera = true ∧ sCamera.inflight = 0 ∧ sCamera.pendingBlob = none ∧
    (runFrom sCamera [Event.captureImageEv none, Event.blobCallback]).loading = true ∧
    (runFrom (runFrom sCamera [Event.captureImageEv none, Event.blobCallback])
        [Event.blobCallback,
         Event.resolveUpload (Except.error TransportError.networkError)]).loading = true :=
  ⟨rfl, rfl, rfl,
    (c10_null_blob_stuck_loading sCamera rfl rfl rfl).1,
    (c10_null_blob_stuck_loading sCamera rfl rfl rfl).2.2.2.2
      [Event.blobCallback, Event.resolveUpload (Except.error TransportError.networkError)]
      (by decide)⟩
